import Mathlib

/-!
Shallow embedding of the `visca2uvc` CLI core (src/main.cc) in Lean 4.

The program is a command-line zoom controller for UVC cameras.  Its core
(`Visca2Uvc` in src/main.cc) creates a libuvc context, finds and opens the
first device, prints diagnostics, then dispatches on the command name,
performing zoom control transfers through thin RAII wrappers.

The embedding models:
  * `simpleAtoiU32` — the semantics of `absl::SimpleAtoi<uint32_t>` (base 10)
    used by the program's generic `SimpleAtoi<T>` wrapper;
  * `SimpleAtoiU16` / `SimpleAtoiU8` / `SimpleAtoiI8` — the wrapper
    `SimpleAtoi<T>` from src/main.cc lines 140-148, which parses at `uint32_t`
    width and then casts the result to `T`;
  * a `DeviceModel` oracle giving the status code and payload returned by each
    underlying `uvc_*` call, so that the wrapper methods `GetZoomAbs`,
    `SetZoomAbs`, `GetZoomRel`, `SetZoomRel` (src/main.cc lines 51-94) become
    pure functions of the oracle;
  * an event-trace semantics `Visca2Uvc` of the dispatcher
    (src/main.cc lines 150-201), recording every subsystem call and every
    RAII release, the stdout/stderr lines, and the outcome (a returned
    `absl::Status` or an exception escaping from `StatusOr::value()`);
  * `mainModel` — the `main` function (src/main.cc lines 205-216): prints a
    non-ok returned status to stderr and exits 0; converts an escaped
    exception into an "Exception: ..." line on stderr and exit code 1.
-/

set_option autoImplicit false

namespace V2U

/-- absl status codes used by the program: `OkStatus`, `InvalidArgumentError`,
`InternalError`, each error carrying its message. -/
inductive Status where
  | ok : Status
  | invalidArgument : String → Status
  | internal : String → Status
deriving Repr, DecidableEq

/-- Rendering of `absl::Status` by `operator<<` (its `ToString`). -/
def statusStr : Status → String
  | .ok => "OK"
  | .invalidArgument m => "INVALID_ARGUMENT: " ++ m
  | .internal m => "INTERNAL: " ++ m

/-- `uvc_req_code` values used by the program: `UVC_GET_MIN`, `UVC_GET_MAX`,
`UVC_GET_CUR`. -/
inductive ReqCode where
  | getMin : ReqCode
  | getMax : ReqCode
  | getCur : ReqCode
deriving Repr, DecidableEq

/-- The `ZoomRel` struct of src/main.cc lines 38-49: a signed 8-bit step, an
unsigned 8-bit digital-zoom flag and an unsigned 8-bit speed. -/
structure ZoomRel where
  zoom_rel : Int
  digital_zoom : Nat
  speed : Nat
deriving Repr, DecidableEq

/-- One observable subsystem interaction: a `uvc_*` library call made by the
program, or the release performed by an RAII wrapper's destructor
(`uvc_close` / `uvc_unref_device` / `uvc_exit`). -/
inductive Event where
  | uvcInit : Event
  | uvcFindDevice : Event
  | uvcOpen : Event
  | uvcPrintDiag : Event
  | uvcGetZoomAbs : ReqCode → Event
  | uvcSetZoomAbs : Nat → Event
  | uvcGetZoomRel : ReqCode → Event
  | uvcSetZoomRel : ZoomRel → Event
  | releaseHandle : Event
  | releaseDevice : Event
  | releaseContext : Event
deriving Repr, DecidableEq

/-- Whether an event is an RAII release (a destructor's `uvc_close`,
`uvc_unref_device` or `uvc_exit`). -/
def Event.isRelease : Event → Bool
  | .releaseHandle => true
  | .releaseDevice => true
  | .releaseContext => true
  | _ => false

/-- Whether an event is a zoom control transfer (one of the four
`uvc_get_zoom_abs` / `uvc_set_zoom_abs` / `uvc_get_zoom_rel` /
`uvc_set_zoom_rel` calls). -/
def Event.isTransfer : Event → Bool
  | .uvcGetZoomAbs _ => true
  | .uvcSetZoomAbs _ => true
  | .uvcGetZoomRel _ => true
  | .uvcSetZoomRel _ => true
  | _ => false

/-- Oracle for the underlying libuvc subsystem: the status code each call
returns (negative means failure, as tested by `err < 0` in the source), the
payload each successful get returns, and `uvc_strerror`. -/
structure DeviceModel where
  initErr : Int
  findErr : Int
  openErr : Int
  getZoomAbsErr : ReqCode → Int
  getZoomAbsVal : ReqCode → Nat
  setZoomAbsErr : Nat → Int
  getZoomRelErr : ReqCode → Int
  getZoomRelVal : ReqCode → ZoomRel
  setZoomRelErr : ZoomRel → Int
  strerror : Int → String

/-- ASCII whitespace as recognised by `absl::ascii_isspace`. -/
def isAsciiSpace (c : Char) : Bool :=
  c = ' ' || c = '\t' || c = '\n' || c = '\x0b' || c = '\x0c' || c = '\r'

/-- Strip leading and trailing ASCII whitespace from a character list, as
`absl`'s number parsing does before reading sign and digits. -/
def stripWs (l : List Char) : List Char :=
  ((l.dropWhile isAsciiSpace).reverse.dropWhile isAsciiSpace).reverse

/-- Value of a non-empty all-digit character list in base 10; `none` if the
list is empty or contains a non-digit. -/
def digitsVal (l : List Char) : Option Nat :=
  if l.isEmpty then none
  else if l.all (fun c => c.isDigit) then
    some (l.foldl (fun a c => a * 10 + (c.toNat - 48)) 0)
  else none

/-- Semantics of `absl::SimpleAtoi` targeting `uint32_t` in base 10: strip
surrounding ASCII whitespace, allow one optional `+` sign (a `-` sign fails,
because the target is unsigned), require a non-empty digit string, and fail
on overflow past `2^32 - 1`. -/
def atoiCore : List Char → Option Nat
  | [] => none
  | c :: rest =>
    if c = '-' then none
    else
      match digitsVal (if c = '+' then rest else c :: rest) with
      | none => none
      | some v => if v < 2 ^ 32 then some v else none

/-- See `atoiCore`: the whole `absl::SimpleAtoi<uint32_t>` semantics,
applied to the whitespace-stripped characters of the token. -/
def simpleAtoiU32 (s : String) : Option Nat :=
  atoiCore (stripWs s.data)

/-- Reinterpretation of a `uint32_t` value as `int8_t` (two's complement),
performed by the cast `T(result)` in `SimpleAtoi<int8_t>`. -/
def toInt8 (n : Nat) : Int :=
  let m := n % 256
  if m < 128 then (m : Int) else (m : Int) - 256

/-- The program's `SimpleAtoi<uint16_t>` (src/main.cc lines 140-148): parse
the token as `uint32_t`, then cast to `uint16_t` (reduction mod `2^16`).  On
parse failure it returns `InvalidArgumentError("Cannot parse as t: ...")`
(`typeid(uint16_t).name()` is `"t"` under the Itanium ABI). -/
def SimpleAtoiU16 (s : String) : Except Status Nat :=
  match simpleAtoiU32 s with
  | none => .error (.invalidArgument ("Cannot parse as t: " ++ s))
  | some v => .ok (v % 2 ^ 16)

/-- The program's `SimpleAtoi<uint8_t>`: parse as `uint32_t`, cast to
`uint8_t` (reduction mod `2^8`); `typeid(uint8_t).name()` is `"h"`. -/
def SimpleAtoiU8 (s : String) : Except Status Nat :=
  match simpleAtoiU32 s with
  | none => .error (.invalidArgument ("Cannot parse as h: " ++ s))
  | some v => .ok (v % 2 ^ 8)

/-- The program's `SimpleAtoi<int8_t>`: parse as `uint32_t`, cast to
`int8_t` (two's-complement reinterpretation); `typeid(int8_t).name()` is
`"a"`. -/
def SimpleAtoiI8 (s : String) : Except Status Int :=
  match simpleAtoiU32 s with
  | none => .error (.invalidArgument ("Cannot parse as a: " ++ s))
  | some v => .ok (toInt8 v)

/-- `UvcDeviceHandle::GetZoomAbs` (src/main.cc lines 53-61): one
`uvc_get_zoom_abs` control transfer; a negative status becomes
`InternalError("uvc_get_zoom_abs: " + uvc_strerror(err))`, otherwise the
returned `uint16_t` payload is the value.  The first component is the list of
subsystem calls made (exactly one). -/
def GetZoomAbs (d : DeviceModel) (req : ReqCode) : List Event × Except Status Nat :=
  ([.uvcGetZoomAbs req],
    if d.getZoomAbsErr req < 0 then
      .error (.internal ("uvc_get_zoom_abs: " ++ d.strerror (d.getZoomAbsErr req)))
    else .ok (d.getZoomAbsVal req))

/-- `UvcDeviceHandle::SetZoomAbs` (src/main.cc lines 63-70): one
`uvc_set_zoom_abs` transfer; negative status becomes `InternalError`, else
`OkStatus`. -/
def SetZoomAbs (d : DeviceModel) (v : Nat) : List Event × Status :=
  ([.uvcSetZoomAbs v],
    if d.setZoomAbsErr v < 0 then
      .internal ("uvc_set_zoom_abs: " ++ d.strerror (d.setZoomAbsErr v))
    else .ok)

/-- `UvcDeviceHandle::GetZoomRel` (src/main.cc lines 72-82): one
`uvc_get_zoom_rel` transfer returning the `ZoomRel` payload. -/
def GetZoomRel (d : DeviceModel) (req : ReqCode) : List Event × Except Status ZoomRel :=
  ([.uvcGetZoomRel req],
    if d.getZoomRelErr req < 0 then
      .error (.internal ("uvc_get_zoom_rel: " ++ d.strerror (d.getZoomRelErr req)))
    else .ok (d.getZoomRelVal req))

/-- `UvcDeviceHandle::SetZoomRel` (src/main.cc lines 84-92): one
`uvc_set_zoom_rel` transfer. -/
def SetZoomRel (d : DeviceModel) (z : ZoomRel) : List Event × Status :=
  ([.uvcSetZoomRel z],
    if d.setZoomRelErr z < 0 then
      .internal ("uvc_set_zoom_rel: " ++ d.strerror (d.setZoomRelErr z))
    else .ok)

/-- Outcome of `Visca2Uvc`: a normally returned `absl::Status`, or an
exception escaping the function (an `absl::BadStatusOrAccess` thrown by
`StatusOr::value()` on an error status, which carries that status). -/
inductive Outcome where
  | ret : Status → Outcome
  | thrown : Status → Outcome
deriving Repr, DecidableEq

/-- Observable result of running `Visca2Uvc`: the subsystem call/release
trace, the stdout lines, the stderr lines, and the outcome. -/
structure ExecResult where
  trace : List Event
  out : List String
  err : List String
  outcome : Outcome
deriving Repr, DecidableEq

/-- Rendering of a `uint16_t` by `operator<<` (decimal). -/
def renderU16 (n : Nat) : String := toString n

/-- Rendering of a `uint8_t` by `operator<<`: `uint8_t` is `unsigned char`,
so the byte is inserted as a character. -/
def renderU8 (n : Nat) : String := String.singleton (Char.ofNat (n % 256))

/-- Rendering of an `int8_t` by `operator<<`: `int8_t` is `signed char`, so
the byte is inserted as a character. -/
def renderI8 (i : Int) : String :=
  String.singleton (Char.ofNat (((i % 256 + 256) % 256).toNat))

/-- The `operator<<` of `ZoomRel` (src/main.cc lines 43-48). -/
def renderZoomRel (z : ZoomRel) : String :=
  "zoom_rel: " ++ renderI8 z.zoom_rel ++ ", digital_zoom: " ++ renderU8 z.digital_zoom
    ++ ", speed: " ++ renderU8 z.speed

/-- The usage banner printed when at most the program name is given
(src/main.cc lines 152-159). -/
def usageLines : List String :=
  ["Usage: visca2uvc [cmd] ...", "", "  get_zoom_abs",
   "  set_zoom_abs focal_length", "", "  get_zoom_rel",
   "  set_zoom_rel zoom_rel digital_zoom speed"]

/-- The subsystem calls made before dispatch on every non-usage path:
`uvc_init`, `uvc_find_device`, `uvc_open`, `uvc_print_diag`
(src/main.cc lines 163-167). -/
def preTrace : List Event := [.uvcInit, .uvcFindDevice, .uvcOpen, .uvcPrintDiag]

/-- The releases run when `Visca2Uvc`'s scope exits with all three wrappers
live: destructors fire in reverse declaration order, `handle`, `dev`, `uvc`. -/
def relAll : List Event := [.releaseHandle, .releaseDevice, .releaseContext]

/-- The `get_zoom_abs` branch (src/main.cc lines 170-173): query Min, Max,
Cur in that order, printing each on its own line; a failed query makes
`.value()` throw, unwinding with the lines already printed. -/
def getAbsBranch (d : DeviceModel) : ExecResult :=
  match GetZoomAbs d .getMin with
  | (t1, .error st) => ⟨t1, [], [], .thrown st⟩
  | (t1, .ok v1) =>
    match GetZoomAbs d .getMax with
    | (t2, .error st) => ⟨t1 ++ t2, ["min: " ++ renderU16 v1], [], .thrown st⟩
    | (t2, .ok v2) =>
      match GetZoomAbs d .getCur with
      | (t3, .error st) =>
        ⟨t1 ++ t2 ++ t3, ["min: " ++ renderU16 v1, "max: " ++ renderU16 v2], [], .thrown st⟩
      | (t3, .ok v3) =>
        ⟨t1 ++ t2 ++ t3,
         ["min: " ++ renderU16 v1, "max: " ++ renderU16 v2, "cur: " ++ renderU16 v3],
         [], .ret .ok⟩

/-- The `get_zoom_rel` branch (src/main.cc lines 182-185). -/
def getRelBranch (d : DeviceModel) : ExecResult :=
  match GetZoomRel d .getMin with
  | (t1, .error st) => ⟨t1, [], [], .thrown st⟩
  | (t1, .ok v1) =>
    match GetZoomRel d .getMax with
    | (t2, .error st) => ⟨t1 ++ t2, ["min: " ++ renderZoomRel v1], [], .thrown st⟩
    | (t2, .ok v2) =>
      match GetZoomRel d .getCur with
      | (t3, .error st) =>
        ⟨t1 ++ t2 ++ t3, ["min: " ++ renderZoomRel v1, "max: " ++ renderZoomRel v2],
         [], .thrown st⟩
      | (t3, .ok v3) =>
        ⟨t1 ++ t2 ++ t3,
         ["min: " ++ renderZoomRel v1, "max: " ++ renderZoomRel v2,
          "cur: " ++ renderZoomRel v3],
         [], .ret .ok⟩

/-- The `set_zoom_abs` branch body with its single argument token
(src/main.cc lines 178-181): parse as `uint16_t` (`.value()` throws on parse
failure), perform the set, print its status, then query and print Cur. -/
def setAbsBranch (d : DeviceModel) (a2 : String) : ExecResult :=
  match SimpleAtoiU16 a2 with
  | .error st => ⟨[], [], [], .thrown st⟩
  | .ok v =>
    match SetZoomAbs d v with
    | (t1, st1) =>
      match GetZoomAbs d .getCur with
      | (t2, .error st) => ⟨t1 ++ t2, ["set: " ++ statusStr st1], [], .thrown st⟩
      | (t2, .ok v2) =>
        ⟨t1 ++ t2, ["set: " ++ statusStr st1, "cur: " ++ renderU16 v2], [], .ret .ok⟩

/-- The `set_zoom_rel` branch body with its argument tokens
(src/main.cc lines 190-195).  Faithful to the source: `zoom_rel` is parsed
from `args[2]`, `digital_zoom` from `args[3]`, and `speed` is parsed from
`args[3]` again (not `args[4]`), so the third token is ignored. -/
def setRelBranch (d : DeviceModel) (a2 a3 : String) : ExecResult :=
  match SimpleAtoiI8 a2 with
  | .error st => ⟨[], [], [], .thrown st⟩
  | .ok z =>
    match SimpleAtoiU8 a3 with
    | .error st => ⟨[], [], [], .thrown st⟩
    | .ok dz =>
      match SimpleAtoiU8 a3 with
      | .error st => ⟨[], [], [], .thrown st⟩
      | .ok sp =>
        let arg : ZoomRel := ⟨z, dz, sp⟩
        match SetZoomRel d arg with
        | (t1, st1) =>
          match GetZoomRel d .getCur with
          | (t2, .error st) => ⟨t1 ++ t2, ["set: " ++ statusStr st1], [], .thrown st⟩
          | (t2, .ok v2) =>
            ⟨t1 ++ t2, ["set: " ++ statusStr st1, "cur: " ++ renderZoomRel v2],
             [], .ret .ok⟩

/-- Command dispatch (src/main.cc lines 169-198), given `cmd = args[1]` and
`rest = args[2..]`.  The arity checks compare `args.size()` to 3 and 5, i.e.
`rest` to lengths 1 and 3; only the set commands check arity.  An unknown
command prints one line to stderr and falls through to the ok return. -/
def dispatch (d : DeviceModel) (cmd : String) (rest : List String) : ExecResult :=
  if cmd = "get_zoom_abs" then getAbsBranch d
  else if cmd = "set_zoom_abs" then
    match rest with
    | [a2] => setAbsBranch d a2
    | _ => ⟨[], [], [], .ret (.invalidArgument "set_zoom_abs needs 1 argument.")⟩
  else if cmd = "get_zoom_rel" then getRelBranch d
  else if cmd = "set_zoom_rel" then
    match rest with
    | [a2, a3, _a4] => setRelBranch d a2 a3
    | _ => ⟨[], [], [], .ret (.invalidArgument "set_zoom_rel needs 3 argument.")⟩
  else ⟨[], [], ["Unknown command: " ++ cmd], .ret .ok⟩

/-- The `Visca2Uvc` function (src/main.cc lines 150-201).  With at most the
program name, print usage and return ok.  Otherwise build the resource chain
— `uvc_init`, `uvc_find_device`, `uvc_open` — where each failure makes
`.value()` throw, unwinding the wrappers acquired so far in reverse order;
then print diagnostics and dispatch.  Every dispatch exit (normal return or
unwinding) destroys `handle`, `dev`, `uvc` in that order. -/
def Visca2Uvc (d : DeviceModel) (args : List String) : ExecResult :=
  match args with
  | _ :: cmd :: rest =>
    if d.initErr < 0 then
      ⟨[.uvcInit], [], [],
       .thrown (.internal ("uvc_init: " ++ d.strerror d.initErr))⟩
    else if d.findErr < 0 then
      ⟨[.uvcInit, .uvcFindDevice, .releaseContext], [], [],
       .thrown (.internal ("uvc_find_device: " ++ d.strerror d.findErr))⟩
    else if d.openErr < 0 then
      ⟨[.uvcInit, .uvcFindDevice, .uvcOpen, .releaseDevice, .releaseContext], [], [],
       .thrown (.internal ("uvc_open: " ++ d.strerror d.openErr))⟩
    else
      let r := dispatch d cmd rest
      ⟨preTrace ++ r.trace ++ relAll, r.out, r.err, r.outcome⟩
  | _ => ⟨[], usageLines, [], .ret .ok⟩

/-- The `what()` text of the `absl::BadStatusOrAccess` thrown by
`StatusOr::value()` on an error status. -/
def exceptionWhat (st : Status) : String :=
  "Bad StatusOr access: " ++ statusStr st

/-- The `main` function (src/main.cc lines 205-216): run `Visca2Uvc`; print a
non-ok returned status to stderr (exit code stays 0, `main` ends without a
return statement); catch an escaped exception, print `"Exception: ..."` to
stderr and return 1.  Result: (exit code, stderr lines). -/
def mainModel (d : DeviceModel) (args : List String) : Nat × List String :=
  match Visca2Uvc d args with
  | ⟨_, _, e, .ret .ok⟩ => (0, e)
  | ⟨_, _, e, .ret st⟩ => (0, e ++ [statusStr st])
  | ⟨_, _, e, .thrown st⟩ => (1, e ++ ["Exception: " ++ exceptionWhat st])

/-- A device model on which every subsystem call succeeds. -/
def dOK : DeviceModel where
  initErr := 0
  findErr := 0
  openErr := 0
  getZoomAbsErr := fun _ => 0
  getZoomAbsVal := fun _ => 100
  setZoomAbsErr := fun _ => 0
  getZoomRelErr := fun _ => 0
  getZoomRelVal := fun _ => ⟨1, 1, 1⟩
  setZoomRelErr := fun _ => 0
  strerror := fun _ => ""

/-- A device model on which every subsystem call fails with status -9
(`UVC_ERROR_PIPE`-like), with a fixed error text. -/
def dBad : DeviceModel where
  initErr := -9
  findErr := -9
  openErr := -9
  getZoomAbsErr := fun _ => -9
  getZoomAbsVal := fun _ => 0
  setZoomAbsErr := fun _ => -9
  getZoomRelErr := fun _ => -9
  getZoomRelVal := fun _ => ⟨0, 0, 0⟩
  setZoomRelErr := fun _ => -9
  strerror := fun _ => "Pipe error"

/-! ### Helper lemmas -/

theorem isRelease_false_of_isTransfer {e : Event} (h : e.isTransfer = true) :
    e.isRelease = false := by
  cases e <;> simp_all [Event.isTransfer, Event.isRelease]

/-- Every event in the `get_zoom_abs` branch trace is a zoom transfer. -/
theorem getAbsBranch_trace (d : DeviceModel) :
    ∀ e ∈ (getAbsBranch d).trace, e.isTransfer = true := by
  by_cases h1 : d.getZoomAbsErr .getMin < 0 <;>
  by_cases h2 : d.getZoomAbsErr .getMax < 0 <;>
  by_cases h3 : d.getZoomAbsErr .getCur < 0 <;>
  simp [getAbsBranch, GetZoomAbs, Event.isTransfer, h1, h2, h3]

/-- Every event in the `get_zoom_rel` branch trace is a zoom transfer. -/
theorem getRelBranch_trace (d : DeviceModel) :
    ∀ e ∈ (getRelBranch d).trace, e.isTransfer = true := by
  by_cases h1 : d.getZoomRelErr .getMin < 0 <;>
  by_cases h2 : d.getZoomRelErr .getMax < 0 <;>
  by_cases h3 : d.getZoomRelErr .getCur < 0 <;>
  simp [getRelBranch, GetZoomRel, Event.isTransfer, h1, h2, h3]

/-- Every event in the `set_zoom_abs` branch trace is a zoom transfer. -/
theorem setAbsBranch_trace (d : DeviceModel) (a2 : String) :
    ∀ e ∈ (setAbsBranch d a2).trace, e.isTransfer = true := by
  rcases hp : SimpleAtoiU16 a2 with st | v
  · simp [setAbsBranch, hp]
  · by_cases h2 : d.getZoomAbsErr .getCur < 0 <;>
    simp [setAbsBranch, hp, SetZoomAbs, GetZoomAbs, Event.isTransfer, h2]

/-- Every event in the `set_zoom_rel` branch trace is a zoom transfer. -/
theorem setRelBranch_trace (d : DeviceModel) (a2 a3 : String) :
    ∀ e ∈ (setRelBranch d a2 a3).trace, e.isTransfer = true := by
  rcases hp1 : SimpleAtoiI8 a2 with st | z
  · simp [setRelBranch, hp1]
  · rcases hp2 : SimpleAtoiU8 a3 with st | dz
    · simp [setRelBranch, hp1, hp2]
    · by_cases h2 : d.getZoomRelErr .getCur < 0 <;>
      simp [setRelBranch, hp1, hp2, SetZoomRel, GetZoomRel, Event.isTransfer, h2]

/-- Every event the dispatcher itself traces is a zoom transfer: releases
and chain calls happen only in `Visca2Uvc` around the dispatch. -/
theorem dispatch_trace_transfers (d : DeviceModel) (cmd : String) (rest : List String) :
    ∀ e ∈ (dispatch d cmd rest).trace, e.isTransfer = true := by
  unfold dispatch
  repeat' split
  all_goals
    first
    | exact getAbsBranch_trace d
    | exact getRelBranch_trace d
    | exact setAbsBranch_trace d _
    | exact setRelBranch_trace d _ _
    | simp

/-! ### Claims -/

/-- Claim C1: the spec's intended contract is that `set_zoom_rel -5 1 10`
parses to `ZoomRel{zoom_rel := -5, digital_zoom := 1, speed := 10}` and that
exactly this value is forwarded to `SetZoomRel`.  The code diverges twice:
`SimpleAtoi<int8_t>` parses through `uint32_t`, so the token `"-5"` fails to
parse (the dispatch throws); and even for sign-free tokens the `speed` field
is parsed from `args[3]` — the digital-zoom token — so `"10"` is ignored and
the forwarded value is `⟨5, 1, 1⟩`, not `⟨5, 1, 10⟩`. -/
theorem C1_eval_set_zoom_rel :
    (Visca2Uvc dOK ["visca2uvc", "set_zoom_rel", "-5", "1", "10"]).outcome
        = .thrown (.invalidArgument "Cannot parse as a: -5")
      ∧ (Visca2Uvc dOK ["visca2uvc", "set_zoom_rel", "5", "1", "10"]).trace
        = preTrace ++ [.uvcSetZoomRel ⟨5, 1, 1⟩, .uvcGetZoomRel .getCur] ++ relAll := by
  constructor <;> decide

/-- Claim C2: the spec requires `parse<u16>("70000")` to fail (out-of-range
input rejected, never truncated).  The code's `SimpleAtoi<uint16_t>` parses
the token at `uint32_t` width and casts, so `"70000"` is accepted and
truncated to `4464 = 70000 mod 2^16`, which then reaches the wire in
`uvc_set_zoom_abs`; the in-range half of the contract (`"0"` parses to `0`)
does hold. -/
theorem C2_eval_truncation :
    SimpleAtoiU16 "70000" = .ok 4464
      ∧ SimpleAtoiU16 "0" = .ok 0
      ∧ (Visca2Uvc dOK ["visca2uvc", "set_zoom_abs", "70000"]).trace
        = preTrace ++ [.uvcSetZoomAbs 4464, .uvcGetZoomAbs .getCur] ++ relAll := by
  refine ⟨rfl, rfl, by decide⟩

/-- Claim C10: whenever `Visca2Uvc` returns (with any `Status`), the process
exits with code 0 — `main` only prints a non-ok status to stderr and ends
without a return statement; exit code 1 occurs exactly when an exception
escapes `Visca2Uvc` into the catch-all. -/
theorem C10_exit_codes :
    ∀ (d : DeviceModel) (args : List String),
      (∀ st, (Visca2Uvc d args).outcome = .ret st → (mainModel d args).1 = 0)
      ∧ ((mainModel d args).1 = 1 ↔ ∃ st, (Visca2Uvc d args).outcome = .thrown st) := by
  intro d args
  rcases hv : Visca2Uvc d args with ⟨t, o, e, oc⟩
  cases oc with
  | ret st => cases st <;> simp [mainModel, hv]
  | thrown st => simp [mainModel, hv]

/-- Witness for C10 at a concrete input: an arity error is a returned (non-ok)
status, and the exit code is still 0. -/
theorem C10_witness : (mainModel dOK ["visca2uvc", "set_zoom_abs"]).1 = 0 :=
  (C10_exit_codes dOK ["visca2uvc", "set_zoom_abs"]).1
    (.invalidArgument "set_zoom_abs needs 1 argument.") (by decide)

/-- Claim C5: each of the four zoom value-transfer operations succeeds iff
the underlying subsystem status code is non-negative; a negative status
yields an error carrying the failing call's name and the subsystem's
`uvc_strerror` text; and each operation performs exactly one subsystem call
(no retry). -/
theorem C5_status_translation :
    ∀ (d : DeviceModel) (req : ReqCode) (v : Nat) (z : ZoomRel),
      ((∃ x, (GetZoomAbs d req).2 = .ok x) ↔ 0 ≤ d.getZoomAbsErr req)
      ∧ (d.getZoomAbsErr req < 0 →
          (GetZoomAbs d req).2
            = .error (.internal ("uvc_get_zoom_abs: " ++ d.strerror (d.getZoomAbsErr req))))
      ∧ (GetZoomAbs d req).1 = [.uvcGetZoomAbs req]
      ∧ ((SetZoomAbs d v).2 = .ok ↔ 0 ≤ d.setZoomAbsErr v)
      ∧ (d.setZoomAbsErr v < 0 →
          (SetZoomAbs d v).2 = .internal ("uvc_set_zoom_abs: " ++ d.strerror (d.setZoomAbsErr v)))
      ∧ (SetZoomAbs d v).1 = [.uvcSetZoomAbs v]
      ∧ ((∃ x, (GetZoomRel d req).2 = .ok x) ↔ 0 ≤ d.getZoomRelErr req)
      ∧ (d.getZoomRelErr req < 0 →
          (GetZoomRel d req).2
            = .error (.internal ("uvc_get_zoom_rel: " ++ d.strerror (d.getZoomRelErr req))))
      ∧ (GetZoomRel d req).1 = [.uvcGetZoomRel req]
      ∧ ((SetZoomRel d z).2 = .ok ↔ 0 ≤ d.setZoomRelErr z)
      ∧ (d.setZoomRelErr z < 0 →
          (SetZoomRel d z).2 = .internal ("uvc_set_zoom_rel: " ++ d.strerror (d.setZoomRelErr z)))
      ∧ (SetZoomRel d z).1 = [.uvcSetZoomRel z] := by
  intro d req v z
  refine ⟨?_, ?_, rfl, ?_, ?_, rfl, ?_, ?_, rfl, ?_, ?_, rfl⟩ <;>
    simp only [GetZoomAbs, SetZoomAbs, GetZoomRel, SetZoomRel] <;>
    split <;> simp_all

/-- Witness for C5 at concrete inputs: on the all-failing device the error
carries the call name and the native message; on the all-succeeding device
the set succeeds. -/
theorem C5_witness :
    (GetZoomAbs dBad .getCur).2
        = .error (.internal ("uvc_get_zoom_abs: " ++ dBad.strerror (dBad.getZoomAbsErr .getCur)))
      ∧ (SetZoomAbs dOK 500).2 = .ok :=
  ⟨(C5_status_translation dBad .getCur 0 ⟨0, 0, 0⟩).2.1 (by decide),
   ((C5_status_translation dOK .getCur 500 ⟨0, 0, 0⟩).2.2.2.1).mpr (by decide)⟩

/-- An element not satisfying the dropped predicate survives `dropWhile`. -/
theorem mem_dropWhile_of_neg {c : Char} {p : Char → Bool} (hc : p c = false) :
    ∀ {l : List Char}, c ∈ l → c ∈ l.dropWhile p := by
  intro l h
  induction l with
  | nil => simp at h
  | cons a t ih =>
    by_cases ha : p a = true
    · rw [List.dropWhile_cons_of_pos ha]
      rcases List.mem_cons.mp h with h1 | h1
      · subst h1; rw [hc] at ha; cases ha
      · exact ih h1
    · rw [List.dropWhile_cons_of_neg ha]
      exact h

/-- A non-whitespace character survives `stripWs`. -/
theorem mem_stripWs {c : Char} (hc : isAsciiSpace c = false) {l : List Char}
    (h : c ∈ l) : c ∈ stripWs l := by
  unfold stripWs
  rw [List.mem_reverse]
  exact mem_dropWhile_of_neg hc (List.mem_reverse.mpr (mem_dropWhile_of_neg hc h))

/-- A list containing `'-'` is not an all-digit list. -/
theorem digitsVal_of_minus {l : List Char} (h : '-' ∈ l) : digitsVal l = none := by
  unfold digitsVal
  rw [if_neg, if_neg]
  · intro hall
    have := List.all_eq_true.mp hall '-' h
    simp at this
  · intro he
    rw [List.isEmpty_iff] at he
    subst he
    simp at h

/-- Any token containing a `'-'` anywhere fails the unsigned `uint32_t`
parse: a leading minus is rejected because the target is unsigned, and a
minus elsewhere is a non-digit. -/
theorem simpleAtoiU32_of_minus {s : String} (h : '-' ∈ s.data) :
    simpleAtoiU32 s = none := by
  have h1 : '-' ∈ stripWs s.data := mem_stripWs (by decide) h
  unfold simpleAtoiU32
  rcases hs : stripWs s.data with _ | ⟨c, rest⟩
  · rfl
  · rw [hs] at h1
    simp only [atoiCore]
    by_cases hm : c = '-'
    · rw [if_pos hm]
    · rw [if_neg hm]
      have hrest : '-' ∈ (if c = '+' then rest else c :: rest) := by
        by_cases hp : c = '+'
        · rw [if_pos hp]
          rcases List.mem_cons.mp h1 with h2 | h2
          · subst hp; exact absurd h2 (by decide)
          · exact h2
        · rw [if_neg hp]; exact h1
      rw [digitsVal_of_minus hrest]

/-- Claim C9: for each target width in {u8, i8, u16}, the parser succeeds
iff the token parses as a base-10 unsigned 32-bit integer, and on success
returns that value reduced mod `2^8` / `2^16` (two's-complement
reinterpretation for `int8_t`); consequently every token containing a minus
sign is rejected, while `"70000"` at width u16 is accepted and truncated to
`4464`. -/
theorem C9_parser_u32_then_cast :
    (∀ s : String,
        (simpleAtoiU32 s = none
          ∧ SimpleAtoiU16 s = .error (.invalidArgument ("Cannot parse as t: " ++ s))
          ∧ SimpleAtoiU8 s = .error (.invalidArgument ("Cannot parse as h: " ++ s))
          ∧ SimpleAtoiI8 s = .error (.invalidArgument ("Cannot parse as a: " ++ s)))
        ∨ (∃ u, simpleAtoiU32 s = some u
            ∧ SimpleAtoiU16 s = .ok (u % 2 ^ 16)
            ∧ SimpleAtoiU8 s = .ok (u % 2 ^ 8)
            ∧ SimpleAtoiI8 s = .ok (toInt8 u)))
      ∧ (∀ s : String, '-' ∈ s.data → simpleAtoiU32 s = none)
      ∧ SimpleAtoiI8 "-5" = .error (.invalidArgument "Cannot parse as a: -5")
      ∧ SimpleAtoiU16 "70000" = .ok 4464 := by
  refine ⟨?_, fun s h => simpleAtoiU32_of_minus h, rfl, rfl⟩
  intro s
  rcases h : simpleAtoiU32 s with _ | u
  · exact Or.inl ⟨rfl, by simp [SimpleAtoiU16, h], by simp [SimpleAtoiU8, h],
      by simp [SimpleAtoiI8, h]⟩
  · exact Or.inr ⟨u, rfl, by simp [SimpleAtoiU16, h], by simp [SimpleAtoiU8, h],
      by simp [SimpleAtoiI8, h]⟩

/-- Witness for C9 at concrete inputs: a minus sign anywhere fails, and the
first disjunct of the characterization is realized at a non-numeric token. -/
theorem C9_witness :
    simpleAtoiU32 "1-2" = none
      ∧ ((simpleAtoiU32 "abc" = none
          ∧ SimpleAtoiU16 "abc" = .error (.invalidArgument "Cannot parse as t: abc")
          ∧ SimpleAtoiU8 "abc" = .error (.invalidArgument "Cannot parse as h: abc")
          ∧ SimpleAtoiI8 "abc" = .error (.invalidArgument "Cannot parse as a: abc"))
        ∨ (∃ u, simpleAtoiU32 "abc" = some u
            ∧ SimpleAtoiU16 "abc" = .ok (u % 2 ^ 16)
            ∧ SimpleAtoiU8 "abc" = .ok (u % 2 ^ 8)
            ∧ SimpleAtoiI8 "abc" = .ok (toInt8 u))) :=
  ⟨C9_parser_u32_then_cast.2.1 "1-2" (by decide), C9_parser_u32_then_cast.1 "abc"⟩

/-- The owned pointer of `UvcWrapper<T, deleter>` (src/main.cc lines 15-36):
`some p` owns the raw resource `p`; `none` is the empty state (moved-from, or
`nullptr`). -/
def UvcWrapper : Type := Option Nat

/-- The move constructor (src/main.cc lines 24-26): the new wrapper takes the
source's pointer and the source is left holding `nullptr`.  The result is
(new wrapper, source after the move). -/
def wrapperMove (w : UvcWrapper) : UvcWrapper × UvcWrapper := (w, none)

/-- The destructor (src/main.cc lines 19-21): the deleter runs exactly when
the owned pointer is non-null; the result lists the resources released. -/
def wrapperDtor : UvcWrapper → List Nat
  | some p => [p]
  | none => []

/-- Characterization of the releases `Visca2Uvc` performs, given which
acquisitions succeed: none on the usage path or when `uvc_init` fails, and
otherwise exactly the wrappers acquired so far, child before parent. -/
def releaseSuffix (d : DeviceModel) (args : List String) : List Event :=
  match args with
  | _ :: _ :: _ =>
    if d.initErr < 0 then []
    else if d.findErr < 0 then [.releaseContext]
    else if d.openErr < 0 then [.releaseDevice, .releaseContext]
    else relAll
  | _ => []

/-- Claim C4: on every execution path (normal return or early failure), the
trace consists of the non-release events followed by exactly the releases of
the resources actually acquired, in strict reverse-acquisition order (Handle
before Device before Context).  Hence each acquired resource is released
exactly once, never double-released, and no subsystem call happens after any
release; and a moved-from wrapper holds no resource and its destruction
releases nothing. -/
theorem C4_resource_lifecycle :
    (∀ (d : DeviceModel) (args : List String),
        (Visca2Uvc d args).trace
          = (Visca2Uvc d args).trace.filter (fun e => !e.isRelease) ++ releaseSuffix d args)
      ∧ ∀ w : UvcWrapper, (wrapperMove w).2 = none ∧ wrapperDtor (wrapperMove w).2 = [] := by
  constructor
  · intro d args
    rcases args with _ | ⟨p, _ | ⟨cmd, rest⟩⟩
    · simp [Visca2Uvc, releaseSuffix]
    · simp [Visca2Uvc, releaseSuffix]
    · by_cases h1 : d.initErr < 0
      · simp [Visca2Uvc, releaseSuffix, h1, Event.isRelease]
      · by_cases h2 : d.findErr < 0
        · simp [Visca2Uvc, releaseSuffix, h1, h2, Event.isRelease]
        · by_cases h3 : d.openErr < 0
          · simp [Visca2Uvc, releaseSuffix, h1, h2, h3, Event.isRelease]
          · have hT := dispatch_trace_transfers d cmd rest
            have hfilter : (dispatch d cmd rest).trace.filter (fun e => !e.isRelease)
                = (dispatch d cmd rest).trace := by
              refine List.filter_eq_self.mpr fun e he => ?_
              rw [isRelease_false_of_isTransfer (hT e he)]
              rfl
            have hpre : preTrace.filter (fun e => !e.isRelease) = preTrace := rfl
            have hrel : relAll.filter (fun e => !e.isRelease) = [] := rfl
            simp [Visca2Uvc, releaseSuffix, h1, h2, h3, List.filter_append, hfilter,
              hpre, hrel]
  · intro w
    exact ⟨rfl, rfl⟩

/-- Shared helper: with the chain succeeding, `set_zoom_abs` with an
argument count other than 1 returns the arity `InvalidArgument` status and
its trace has no zoom transfer. -/
theorem setAbs_arity_error (d : DeviceModel) (p : String) (rest : List String)
    (h1 : ¬d.initErr < 0) (h2 : ¬d.findErr < 0) (h3 : ¬d.openErr < 0)
    (hlen : rest.length ≠ 1) :
    (Visca2Uvc d (p :: "set_zoom_abs" :: rest)).outcome
      = .ret (.invalidArgument "set_zoom_abs needs 1 argument.")
    ∧ ∀ e ∈ (Visca2Uvc d (p :: "set_zoom_abs" :: rest)).trace, e.isTransfer = false := by
  rcases rest with _ | ⟨a, _ | ⟨b, t⟩⟩
  · constructor <;> simp [Visca2Uvc, dispatch, h1, h2, h3, preTrace, relAll,
      Event.isTransfer]
  · simp at hlen
  · constructor <;> simp [Visca2Uvc, dispatch, h1, h2, h3, preTrace, relAll,
      Event.isTransfer]

/-- Shared helper: with the chain succeeding, `set_zoom_rel` with an
argument count other than 3 returns the arity `InvalidArgument` status and
its trace has no zoom transfer. -/
theorem setRel_arity_error (d : DeviceModel) (p : String) (rest : List String)
    (h1 : ¬d.initErr < 0) (h2 : ¬d.findErr < 0) (h3 : ¬d.openErr < 0)
    (hlen : rest.length ≠ 3) :
    (Visca2Uvc d (p :: "set_zoom_rel" :: rest)).outcome
      = .ret (.invalidArgument "set_zoom_rel needs 3 argument.")
    ∧ ∀ e ∈ (Visca2Uvc d (p :: "set_zoom_rel" :: rest)).trace, e.isTransfer = false := by
  rcases rest with _ | ⟨a, _ | ⟨b, _ | ⟨c, _ | ⟨e4, t⟩⟩⟩⟩
  · constructor <;> simp [Visca2Uvc, dispatch, h1, h2, h3, preTrace, relAll,
      Event.isTransfer]
  · constructor <;> simp [Visca2Uvc, dispatch, h1, h2, h3, preTrace, relAll,
      Event.isTransfer]
  · constructor <;> simp [Visca2Uvc, dispatch, h1, h2, h3, preTrace, relAll,
      Event.isTransfer]
  · simp at hlen
  · constructor <;> simp [Visca2Uvc, dispatch, h1, h2, h3, preTrace, relAll,
      Event.isTransfer]

/-- Claim C3, counterexample: invoking `set_zoom_abs` with 0 arguments does
fail with `InvalidArgument`, but subsystem calls are made before that
failure — the trace already contains `uvc_init`, `uvc_find_device`,
`uvc_open` and `uvc_print_diag`, so "no subsystem/device call is ever made
before that failure" is false on the code. -/
theorem C3_counterexample :
    (Visca2Uvc dOK ["visca2uvc", "set_zoom_abs"]).outcome
        = .ret (.invalidArgument "set_zoom_abs needs 1 argument.")
      ∧ Event.uvcInit ∈ (Visca2Uvc dOK ["visca2uvc", "set_zoom_abs"]).trace
      ∧ Event.uvcOpen ∈ (Visca2Uvc dOK ["visca2uvc", "set_zoom_abs"]).trace := by
  refine ⟨by decide, by decide, by decide⟩

/-- Claim C3, amended: when the subsystem chain succeeds, a set command with
the wrong argument count fails with `InvalidArgument` and no zoom control
transfer is ever made for it; but context creation, device discovery, open
and diagnostics do occur before the arity check (the trace starts with
them), and only the set commands check arity at all. -/
theorem C3_amended_arity :
    ∀ (d : DeviceModel) (p : String) (rest : List String),
      0 ≤ d.initErr → 0 ≤ d.findErr → 0 ≤ d.openErr →
      ((rest.length ≠ 1 →
          (Visca2Uvc d (p :: "set_zoom_abs" :: rest)).outcome
            = .ret (.invalidArgument "set_zoom_abs needs 1 argument.")
          ∧ ∀ e ∈ (Visca2Uvc d (p :: "set_zoom_abs" :: rest)).trace, e.isTransfer = false)
       ∧ (rest.length ≠ 3 →
          (Visca2Uvc d (p :: "set_zoom_rel" :: rest)).outcome
            = .ret (.invalidArgument "set_zoom_rel needs 3 argument.")
          ∧ ∀ e ∈ (Visca2Uvc d (p :: "set_zoom_rel" :: rest)).trace, e.isTransfer = false)
       ∧ (Visca2Uvc d (p :: "set_zoom_abs" :: rest)).trace.take 4 = preTrace) := by
  intro d p rest hi hf ho
  have h1 : ¬d.initErr < 0 := not_lt.mpr hi
  have h2 : ¬d.findErr < 0 := not_lt.mpr hf
  have h3 : ¬d.openErr < 0 := not_lt.mpr ho
  refine ⟨fun hlen => ?_, fun hlen => ?_, ?_⟩
  · exact setAbs_arity_error d p rest h1 h2 h3 hlen
  · exact setRel_arity_error d p rest h1 h2 h3 hlen
  · simp [Visca2Uvc, h1, h2, h3, preTrace]

/-- Witness for C3 (amended) at a concrete input. -/
theorem C3_amended_witness :
    (Visca2Uvc dOK ["visca2uvc", "set_zoom_rel", "1", "2"]).outcome
      = .ret (.invalidArgument "set_zoom_rel needs 3 argument.") :=
  (((C3_amended_arity dOK "visca2uvc" ["1", "2"] (by decide) (by decide)
      (by decide)).2.1) (by decide)).1

/-- Claim C6: with the chain and the needed queries succeeding, each "get"
command invokes Min, Max, Current in exactly that order and prints one
`"<label>: <value>"` line per result (labels `min`, `max`, `cur`); each
"set" command invokes the setter and then re-queries and prints Current. -/
theorem C6_get_set_sequences :
    (∀ (d : DeviceModel) (p : String) (rest : List String),
        0 ≤ d.initErr → 0 ≤ d.findErr → 0 ≤ d.openErr →
        (∀ req, 0 ≤ d.getZoomAbsErr req) →
        (Visca2Uvc d (p :: "get_zoom_abs" :: rest)).trace
          = preTrace ++ [.uvcGetZoomAbs .getMin, .uvcGetZoomAbs .getMax,
              .uvcGetZoomAbs .getCur] ++ relAll
        ∧ (Visca2Uvc d (p :: "get_zoom_abs" :: rest)).out
          = ["min: " ++ renderU16 (d.getZoomAbsVal .getMin),
             "max: " ++ renderU16 (d.getZoomAbsVal .getMax),
             "cur: " ++ renderU16 (d.getZoomAbsVal .getCur)])
      ∧ (∀ (d : DeviceModel) (p : String) (rest : List String),
          0 ≤ d.initErr → 0 ≤ d.findErr → 0 ≤ d.openErr →
          (∀ req, 0 ≤ d.getZoomRelErr req) →
          (Visca2Uvc d (p :: "get_zoom_rel" :: rest)).trace
            = preTrace ++ [.uvcGetZoomRel .getMin, .uvcGetZoomRel .getMax,
                .uvcGetZoomRel .getCur] ++ relAll
          ∧ (Visca2Uvc d (p :: "get_zoom_rel" :: rest)).out
            = ["min: " ++ renderZoomRel (d.getZoomRelVal .getMin),
               "max: " ++ renderZoomRel (d.getZoomRelVal .getMax),
               "cur: " ++ renderZoomRel (d.getZoomRelVal .getCur)])
      ∧ (∀ (d : DeviceModel) (p a2 : String) (v : Nat),
          0 ≤ d.initErr → 0 ≤ d.findErr → 0 ≤ d.openErr →
          SimpleAtoiU16 a2 = .ok v → 0 ≤ d.getZoomAbsErr .getCur →
          (Visca2Uvc d [p, "set_zoom_abs", a2]).trace
            = preTrace ++ [.uvcSetZoomAbs v, .uvcGetZoomAbs .getCur] ++ relAll
          ∧ (Visca2Uvc d [p, "set_zoom_abs", a2]).out
            = ["set: " ++ statusStr (SetZoomAbs d v).2,
               "cur: " ++ renderU16 (d.getZoomAbsVal .getCur)])
      ∧ (∀ (d : DeviceModel) (p a2 a3 a4 : String) (z : Int) (dz : Nat),
          0 ≤ d.initErr → 0 ≤ d.findErr → 0 ≤ d.openErr →
          SimpleAtoiI8 a2 = .ok z → SimpleAtoiU8 a3 = .ok dz →
          0 ≤ d.getZoomRelErr .getCur →
          (Visca2Uvc d [p, "set_zoom_rel", a2, a3, a4]).trace
            = preTrace ++ [.uvcSetZoomRel ⟨z, dz, dz⟩, .uvcGetZoomRel .getCur] ++ relAll
          ∧ (Visca2Uvc d [p, "set_zoom_rel", a2, a3, a4]).out
            = ["set: " ++ statusStr (SetZoomRel d ⟨z, dz, dz⟩).2,
               "cur: " ++ renderZoomRel (d.getZoomRelVal .getCur)]) := by
  refine ⟨?_, ?_, ?_, ?_⟩
  · intro d p rest hi hf ho hg
    have h1 : ¬d.initErr < 0 := not_lt.mpr hi
    have h2 : ¬d.findErr < 0 := not_lt.mpr hf
    have h3 : ¬d.openErr < 0 := not_lt.mpr ho
    have g1 : ¬d.getZoomAbsErr .getMin < 0 := not_lt.mpr (hg _)
    have g2 : ¬d.getZoomAbsErr .getMax < 0 := not_lt.mpr (hg _)
    have g3 : ¬d.getZoomAbsErr .getCur < 0 := not_lt.mpr (hg _)
    constructor <;>
      simp [Visca2Uvc, dispatch, getAbsBranch, GetZoomAbs, h1, h2, h3, g1, g2, g3,
        preTrace, relAll]
  · intro d p rest hi hf ho hg
    have h1 : ¬d.initErr < 0 := not_lt.mpr hi
    have h2 : ¬d.findErr < 0 := not_lt.mpr hf
    have h3 : ¬d.openErr < 0 := not_lt.mpr ho
    have g1 : ¬d.getZoomRelErr .getMin < 0 := not_lt.mpr (hg _)
    have g2 : ¬d.getZoomRelErr .getMax < 0 := not_lt.mpr (hg _)
    have g3 : ¬d.getZoomRelErr .getCur < 0 := not_lt.mpr (hg _)
    constructor <;>
      simp [Visca2Uvc, dispatch, getRelBranch, GetZoomRel, h1, h2, h3, g1, g2, g3,
        preTrace, relAll]
  · intro d p a2 v hi hf ho hp hc
    have h1 : ¬d.initErr < 0 := not_lt.mpr hi
    have h2 : ¬d.findErr < 0 := not_lt.mpr hf
    have h3 : ¬d.openErr < 0 := not_lt.mpr ho
    have g3 : ¬d.getZoomAbsErr .getCur < 0 := not_lt.mpr hc
    constructor <;>
      simp [Visca2Uvc, dispatch, setAbsBranch, GetZoomAbs, SetZoomAbs, h1, h2, h3,
        g3, hp, preTrace, relAll]
  · intro d p a2 a3 a4 z dz hi hf ho hp1 hp2 hc
    have h1 : ¬d.initErr < 0 := not_lt.mpr hi
    have h2 : ¬d.findErr < 0 := not_lt.mpr hf
    have h3 : ¬d.openErr < 0 := not_lt.mpr ho
    have g3 : ¬d.getZoomRelErr .getCur < 0 := not_lt.mpr hc
    constructor <;>
      simp [Visca2Uvc, dispatch, setRelBranch, GetZoomRel, SetZoomRel, h1, h2, h3,
        g3, hp1, hp2, preTrace, relAll]

/-- Witness for C6 at concrete inputs: the printed lines of a get and of a
set on the all-succeeding device. -/
theorem C6_witness :
    (Visca2Uvc dOK ["visca2uvc", "get_zoom_abs"]).out
        = ["min: " ++ renderU16 (dOK.getZoomAbsVal .getMin),
           "max: " ++ renderU16 (dOK.getZoomAbsVal .getMax),
           "cur: " ++ renderU16 (dOK.getZoomAbsVal .getCur)]
      ∧ (Visca2Uvc dOK ["visca2uvc", "set_zoom_abs", "500"]).out
        = ["set: " ++ statusStr (SetZoomAbs dOK 500).2,
           "cur: " ++ renderU16 (dOK.getZoomAbsVal .getCur)] :=
  ⟨(C6_get_set_sequences.1 dOK "visca2uvc" [] (by decide) (by decide) (by decide)
      (fun req => by cases req <;> decide)).2,
   (C6_get_set_sequences.2.2.1 dOK "visca2uvc" "500" 500 (by decide) (by decide)
      (by decide) rfl (by decide)).2⟩

/-- Claim C7, counterexample: a malformed numeric argument — an expected
failure path — is realized as an exception: `SimpleAtoi(...).value()` throws,
the catch-all converts it into exit code 1, contradicting "no expected
failure path is realized as an exception" and "every such error is
value-returned up to the dispatch boundary". -/
theorem C7_counterexample :
    (Visca2Uvc dOK ["visca2uvc", "set_zoom_abs", "abc"]).outcome
        = .thrown (.invalidArgument "Cannot parse as t: abc")
      ∧ (mainModel dOK ["visca2uvc", "set_zoom_abs", "abc"]).1 = 1 := by
  refine ⟨by decide, by decide⟩

/-- Claim C7, amended: only arity errors are value-returned up to the
dispatch boundary; parse errors and subsystem-chain errors are realized as
exceptions thrown from `StatusOr::value()`, and the catch-all at the process
boundary converts any exception into exit code 1 with a diagnostic on the
error stream. -/
theorem C7_amended_propagation :
    (∀ (d : DeviceModel) (p : String) (rest : List String),
        0 ≤ d.initErr → 0 ≤ d.findErr → 0 ≤ d.openErr → rest.length ≠ 1 →
        (Visca2Uvc d (p :: "set_zoom_abs" :: rest)).outcome
          = .ret (.invalidArgument "set_zoom_abs needs 1 argument."))
      ∧ (∀ (d : DeviceModel) (p s : String),
          0 ≤ d.initErr → 0 ≤ d.findErr → 0 ≤ d.openErr → simpleAtoiU32 s = none →
          (Visca2Uvc d [p, "set_zoom_abs", s]).outcome
            = .thrown (.invalidArgument ("Cannot parse as t: " ++ s)))
      ∧ (∀ (d : DeviceModel) (p cmd : String) (rest : List String),
          d.initErr < 0 →
          (Visca2Uvc d (p :: cmd :: rest)).outcome
            = .thrown (.internal ("uvc_init: " ++ d.strerror d.initErr)))
      ∧ (∀ (d : DeviceModel) (args : List String) (st : Status),
          (Visca2Uvc d args).outcome = .thrown st →
          (mainModel d args).1 = 1
          ∧ ("Exception: " ++ exceptionWhat st) ∈ (mainModel d args).2) := by
  refine ⟨?_, ?_, ?_, ?_⟩
  · intro d p rest hi hf ho hlen
    exact (setAbs_arity_error d p rest (not_lt.mpr hi) (not_lt.mpr hf)
      (not_lt.mpr ho) hlen).1
  · intro d p s hi hf ho hs
    have h1 : ¬d.initErr < 0 := not_lt.mpr hi
    have h2 : ¬d.findErr < 0 := not_lt.mpr hf
    have h3 : ¬d.openErr < 0 := not_lt.mpr ho
    simp [Visca2Uvc, dispatch, setAbsBranch, SimpleAtoiU16, h1, h2, h3, hs]
  · intro d p cmd rest hi
    simp [Visca2Uvc, hi]
  · intro d args st h
    rcases hv : Visca2Uvc d args with ⟨t, o, e, oc⟩
    rw [hv] at h
    simp only at h
    subst h
    simp [mainModel, hv]

/-- Witness for C7 (amended) at concrete inputs: wrong arity is
value-returned, while a failing `uvc_init` becomes an exception whose
diagnostic reaches the error stream with exit code 1. -/
theorem C7_amended_witness :
    (Visca2Uvc dOK ["visca2uvc", "set_zoom_abs"]).outcome
        = .ret (.invalidArgument "set_zoom_abs needs 1 argument.")
      ∧ (mainModel dBad ["visca2uvc", "get_zoom_abs"]).1 = 1 :=
  ⟨C7_amended_propagation.1 dOK "visca2uvc" [] (by decide) (by decide) (by decide)
      (by decide),
   (C7_amended_propagation.2.2.2 dBad ["visca2uvc", "get_zoom_abs"]
      (.internal ("uvc_init: " ++ dBad.strerror dBad.initErr))
      (C7_amended_propagation.2.2.1 dBad "visca2uvc" "get_zoom_abs" [] (by decide))).1⟩

/-- Claim C8: with the chain succeeding, an unrecognized command produces
exactly one line on the error stream (`"Unknown command: <cmd>"`), no zoom
control transfer is made, and the process exit code is 0. -/
theorem C8_unknown_command :
    ∀ (d : DeviceModel) (p cmd : String) (rest : List String),
      0 ≤ d.initErr → 0 ≤ d.findErr → 0 ≤ d.openErr →
      cmd ≠ "get_zoom_abs" → cmd ≠ "set_zoom_abs" →
      cmd ≠ "get_zoom_rel" → cmd ≠ "set_zoom_rel" →
      (mainModel d (p :: cmd :: rest)).2 = ["Unknown command: " ++ cmd]
      ∧ (mainModel d (p :: cmd :: rest)).1 = 0
      ∧ ∀ e ∈ (Visca2Uvc d (p :: cmd :: rest)).trace, e.isTransfer = false := by
  intro d p cmd rest hi hf ho hc1 hc2 hc3 hc4
  have h1 : ¬d.initErr < 0 := not_lt.mpr hi
  have h2 : ¬d.findErr < 0 := not_lt.mpr hf
  have h3 : ¬d.openErr < 0 := not_lt.mpr ho
  refine ⟨?_, ?_, ?_⟩ <;>
    simp [mainModel, Visca2Uvc, dispatch, h1, h2, h3, hc1, hc2, hc3, hc4,
      preTrace, relAll, Event.isTransfer]

/-- Witness for C8 at a concrete input: the unknown command `foo`. -/
theorem C8_witness :
    (mainModel dOK ["visca2uvc", "foo"]).2 = ["Unknown command: foo"]
      ∧ (mainModel dOK ["visca2uvc", "foo"]).1 = 0 :=
  ⟨(C8_unknown_command dOK "visca2uvc" "foo" [] (by decide) (by decide) (by decide)
      (by decide) (by decide) (by decide) (by decide)).1,
   (C8_unknown_command dOK "visca2uvc" "foo" [] (by decide) (by decide) (by decide)
      (by decide) (by decide) (by decide) (by decide)).2.1⟩

end V2U
